import Mathlib

/-!
Verification of the JSON-RPC 2.0 envelope library (jsonrpc.go).

The library builds and classifies JSON-RPC 2.0 messages.  JSON encoding and
decoding themselves are an external substrate (spec section 1): a decoded JSON
value in Go is one of nil, bool, float64, string, []interface, or
map[string]interface.  We embed that value algebra as `JsonVal` (with JSON
null identified with the Go nil interface, exactly as the decoder produces it)
and embed each Go function over it.  `json.Marshal` followed by the external
decode is the identity on this algebra, so constructors return the decoded
image of the text they would produce.

Go-specific behaviour is modelled explicitly:
- an unchecked interface type assertion such as `version.(string)` panics on a
  value of the wrong dynamic type; a function that can panic returns `Option`
  with `none` for the panic;
- constructor arguments are Go values, where the dynamic types `int` and
  `float64` are distinct; `GoVal` keeps that distinction;
- a struct field keeps its zero value ("" for strings, nil for interfaces and
  pointers) when the decoded map lacks the key.
-/

namespace JsonrpcGo

/-- A decoded JSON value as Go's encoding/json produces it into interface
values: JSON null becomes the nil interface, numbers become float64 (embedded
as rationals), objects become string-keyed maps (association lists). -/
inductive JsonVal where
  | null
  | bool (b : Bool)
  | num (q : ℚ)
  | str (s : String)
  | arr (elems : List JsonVal)
  | obj (fields : List (String × JsonVal))

/-- Whether the value is JSON null, i.e. the Go nil interface. -/
def JsonVal.isNull : JsonVal → Bool
  | .null => true
  | _ => false

/-- A Go value passed by a caller to a constructor.  Go distinguishes the
dynamic types int and float64, which matters to validateID. -/
inductive GoVal where
  | nil
  | int (n : Int)
  | float (q : ℚ)
  | str (s : String)
  | bool (b : Bool)
  | arr (elems : List GoVal)
  | obj (fields : List (String × GoVal))

/-- Whether the Go interface value is nil. -/
def GoVal.isNil : GoVal → Bool
  | .nil => true
  | _ => false

mutual

/-- The JSON value a Go value marshals to (int and float64 both become JSON
numbers; nil becomes null). -/
def toJson : GoVal → JsonVal
  | .nil => .null
  | .int n => .num (n : ℚ)
  | .float q => .num q
  | .str s => .str s
  | .bool b => .bool b
  | .arr es => .arr (toJsonList es)
  | .obj fs => .obj (toJsonFields fs)

def toJsonList : List GoVal → List JsonVal
  | [] => []
  | v :: vs => toJson v :: toJsonList vs

def toJsonFields : List (String × GoVal) → List (String × JsonVal)
  | [] => []
  | (k, v) :: fs => (k, toJson v) :: toJsonFields fs

end

/-- The Go errors the package creates (errors.New values and the package-level
Err variables of jsonrpc.go). -/
inductive GoErr where
  | emptyMessage
  | resultArgument
  | jsonrpcVersion
  | jsonrpcObject
  | invalidID
  | msgStructures
  | emptyBatch
deriving DecidableEq

/-- The text of each Go error value. -/
def errMessage : GoErr → String
  | .emptyMessage => "Empty jsonrpc message"
  | .resultArgument => "Invalid \x27result\x27 argument that\x27s required"
  | .jsonrpcVersion => "invalid jsonrpc version"
  | .jsonrpcObject => "invalid jsonrpc object"
  | .invalidID => "invalid id that MUST contain a String, Number, or NULL value"
  | .msgStructures => "invalid jsonrpc message structures"
  | .emptyBatch => "empty message"

/-- ErrorObj from jsonrpc.go: code, message, and optional data (the nil
interface, i.e. JSON null, when absent). -/
structure ErrorObj where
  Code : Int
  Message : String
  Data : JsonVal

/-- jsonRPCVersion from jsonrpc.go. -/
def jsonRPCVersion : String := "2.0"

/-- Invalid message type tag. -/
def Invalid : String := "invalid"

/-- NotificationType message type tag. -/
def NotificationType : String := "notification"

/-- RequestType message type tag. -/
def RequestType : String := "request"

/-- ErrorType message type tag. -/
def ErrorType : String := "error"

/-- SuccessType message type tag. -/
def SuccessType : String := "success"

/-- RPCParseError catalog entry (-32700, Parse error). -/
def RPCParseError : ErrorObj := ⟨-32700, "Parse error", .null⟩

/-- RPCInvalidRequest catalog entry (-32600, Invalid Request). -/
def RPCInvalidRequest : ErrorObj := ⟨-32600, "Invalid Request", .null⟩

/-- RPCInternalError catalog entry (-32603, Internal error). -/
def RPCInternalError : ErrorObj := ⟨-32603, "Internal error", .null⟩

/-- PayloadReq from jsonrpc.go.  Field values are decoded JSON values; the
zero value of a string field is "" and of an interface field is nil. -/
structure PayloadReq where
  Version : String
  Method : String
  Params : JsonVal
  ID : JsonVal

/-- ClientRequest from jsonrpc.go (the source field named Type is a Lean
keyword, hence the quoted name). -/
structure ClientRequest where
  «Type» : String
  PlayLoad : PayloadReq

/-- PayloadRes from jsonrpc.go; Error is a pointer, nil when absent. -/
structure PayloadRes where
  Version : String
  Result : JsonVal
  Error : Option ErrorObj
  ID : JsonVal

/-- ClientResponse from jsonrpc.go. -/
structure ClientResponse where
  «Type» : String
  PlayLoad : PayloadRes

/-- The decoded map of one message, projected onto the keys the parsers read
(the Go code looks up exactly jsonrpc, method, params, id, result, error).
`none` means the key is absent from the decoded object; `some .null` means the
key is present with JSON null. -/
structure DecodedMap where
  jsonrpc : Option JsonVal
  method : Option JsonVal
  params : Option JsonVal
  id : Option JsonVal
  result : Option JsonVal
  error : Option JsonVal

/-- Reading an optional key into a Go interface field: an absent key leaves
the nil zero value. -/
def fieldVal : Option JsonVal → JsonVal
  | none => .null
  | some v => v

/-- Reading an optional key into a Go string field through the unchecked type
assertion `.(string)`: absent key leaves the "" zero value; a present
non-string value panics (`none`). -/
def goStringField : Option JsonVal → Option String
  | none => some ""
  | some (.str s) => some s
  | some _ => none

/-- Go's int(float64) conversion truncates toward zero. -/
def goInt (q : ℚ) : Int :=
  if 0 ≤ q then q.floor else q.ceil

/-- Lookup of a key in a decoded Go map (association list). -/
def lookupField (fields : List (String × JsonVal)) (k : String) : Option JsonVal :=
  (fields.find? (fun p => p.1 == k)).map (fun p => p.2)

/-- validateID from jsonrpc.go: nil passes; otherwise a type switch accepts
only the dynamic types string and int. -/
def validateID : GoVal → Option GoErr
  | .nil => none
  | .str _ => none
  | .int _ => none
  | _ => some .invalidID

/-- checkReqType from jsonrpc.go: sets the Type tag and returns the error. -/
def checkReqType (res : ClientRequest) : ClientRequest × Option GoErr :=
  let p := res.PlayLoad
  if p.Version ≠ jsonRPCVersion then ({ res with «Type» := Invalid }, some .jsonrpcVersion)
  else if p.Method = "" then ({ res with «Type» := Invalid }, some .jsonrpcObject)
  else if p.ID.isNull then ({ res with «Type» := NotificationType }, none)
  else ({ res with «Type» := RequestType }, none)

/-- checkResType from jsonrpc.go: version, then error, then result; in the
final else branch the Type tag is left untouched (the zero value ""). -/
def checkResType (res : ClientResponse) : ClientResponse × Option GoErr :=
  let p := res.PlayLoad
  if p.Version ≠ jsonRPCVersion then ({ res with «Type» := Invalid }, some .jsonrpcVersion)
  else
    match p.Error with
    | some _ => ({ res with «Type» := ErrorType }, none)
    | none =>
      if p.Result.isNull then (res, some .jsonrpcObject)
      else ({ res with «Type» := SuccessType }, none)

/-- parseReqMap from jsonrpc.go.  The jsonrpc and method keys go through
unchecked `.(string)` assertions, so a present non-string value panics
(`none`); id and params are copied as-is. -/
def parseReqMap (val : DecodedMap) : Option (ClientRequest × Option GoErr) :=
  match goStringField val.jsonrpc, goStringField val.method with
  | some version, some method =>
      some (checkReqType ⟨"", ⟨version, method, fieldVal val.params, fieldVal val.id⟩⟩)
  | _, _ => none

/-- Decoding the error member in parseResMap: an absent key leaves the nil
pointer; a present non-map value leaves the freshly allocated zero ErrorObj;
a map value goes through unchecked assertions `code.(float64)` (then int
conversion) and `message.(string)`, panicking (`none`) when they fail. -/
def parseErrField : Option JsonVal → Option (Option ErrorObj)
  | none => some none
  | some (.obj fields) =>
      match lookupField fields "code", lookupField fields "message" with
      | some (.num q), some (.str s) =>
          some (some ⟨goInt q, s, fieldVal (lookupField fields "data")⟩)
      | _, _ => none
  | some _ => some (some ⟨0, "", .null⟩)

/-- parseResMap from jsonrpc.go. -/
def parseResMap (val : DecodedMap) : Option (ClientResponse × Option GoErr) :=
  match goStringField val.jsonrpc, parseErrField val.error with
  | some version, some errObj =>
      some (checkResType ⟨"", ⟨version, fieldVal val.result, errObj, fieldVal val.id⟩⟩)
  | _, _ => none

/-- Request from jsonrpc.go.  On an id validation failure it returns the empty
result and the error; otherwise it marshals the payload.  json.Marshal
followed by the external JSON decode is the identity on the value algebra, so
the produced text is represented by its decoded object (omitempty omits the
params and id keys when the interface values are nil; jsonrpc and method have
no omitempty and are always emitted). -/
def Request (id : GoVal) (method : String) (args : List GoVal) :
    Option DecodedMap × Option GoErr :=
  match validateID id with
  | some e => (none, some e)
  | none =>
      let params := match args with
        | [] => GoVal.nil
        | a :: _ => a
      (some
        { jsonrpc := some (.str jsonRPCVersion)
          method := some (.str method)
          params := if params.isNil then none else some (toJson params)
          id := if id.isNil then none else some (toJson id)
          result := none
          error := none }, none)

/-- Success from jsonrpc.go: a nil result is rejected first, then the id is
validated, then the payload is marshalled (result is guaranteed non-nil so
its omitempty never fires; id is omitted when nil). -/
def Success (id result : GoVal) : Option DecodedMap × Option GoErr :=
  if result.isNil then (none, some .resultArgument)
  else
    match validateID id with
    | some e => (none, some e)
    | none =>
        (some
          { jsonrpc := some (.str jsonRPCVersion)
            method := none
            params := none
            result := some (toJson result)
            id := if id.isNil then none else some (toJson id)
            error := none }, none)

/-- Marshalling an ErrorObj: code and message always, data under omitempty. -/
def marshalErrorObj (e : ErrorObj) : JsonVal :=
  .obj (("code", JsonVal.num (e.Code : ℚ)) :: ("message", JsonVal.str e.Message) ::
    (if e.Data.isNull then [] else [("data", e.Data)]))

/-- Error from jsonrpc.go: validates the id, then marshals the payload with
the given error object embedded verbatim. -/
def Error (id : GoVal) (rpcerr : ErrorObj) : Option DecodedMap × Option GoErr :=
  match validateID id with
  | some e => (none, some e)
  | none =>
      (some
        { jsonrpc := some (.str jsonRPCVersion)
          method := none
          params := none
          result := none
          error := some (marshalErrorObj rpcerr)
          id := if id.isNil then none else some (toJson id) }, none)

/-- Batch from jsonrpc.go: zero fragments return the literal text; otherwise
a loop appends fragments 0 .. n-2 each followed by a comma, then the last
fragment, inside square brackets. -/
def Batch (batch : List String) : String :=
  if batch.length = 0 then "[]"
  else
    (batch.dropLast.foldl (fun acc s => acc ++ s ++ ",") "[")
      ++ batch.getLast?.getD "" ++ "]"

/-- The outcome of json.Unmarshal of the batch text into a slice of maps:
either the whole decode fails (also when some array element is not an
object), or it yields the list of decoded element objects. -/
inductive Decoded where
  | failure
  | ok (elems : List DecodedMap)

/-- ParseBatch from jsonrpc.go, taking the raw text's length (for the
`len(msg) < 2` guard) and the decode outcome of the text (the decode itself
is the external substrate).  On decode failure the nil result slice and the
error are returned.  Otherwise each element goes through parseReqMap with the
per-element error discarded; a panic inside parseReqMap aborts the whole call
(`none`). -/
def ParseBatch (msgLen : Nat) (d : Decoded) :
    Option (List ClientRequest × Option GoErr) :=
  if msgLen < 2 then some ([], some .emptyBatch)
  else
    match d with
    | .failure => some ([], some .msgStructures)
    | .ok elems =>
        (elems.mapM (fun v => (parseReqMap v).map Prod.fst)).map (fun rs => (rs, none))

/-- The join the spec describes for Batch, stated in the spec's own words:
the fragments in order, separated by commas.  Used only to compare the loop
in `Batch` against the specified text. -/
def commaJoin : List String → String
  | [] => ""
  | [x] => x
  | x :: y :: xs => x ++ "," ++ commaJoin (y :: xs)

lemma batch_loop_spec (xs : List String) : ∀ (x acc : String),
    ((x :: xs).dropLast.foldl (fun a s => a ++ s ++ ",") acc)
      ++ ((x :: xs).getLast?.getD "") = acc ++ commaJoin (x :: xs) := by
  induction xs with
  | nil => intro x acc; simp [commaJoin]
  | cons y ys ih =>
      intro x acc
      have hdrop : (x :: y :: ys).dropLast = x :: (y :: ys).dropLast := rfl
      have hlast : (x :: y :: ys).getLast? = (y :: ys).getLast? := rfl
      rw [hdrop, hlast, List.foldl_cons, ih y (acc ++ x ++ ",")]
      simp [commaJoin, String.append_assoc]

/-- C9: Batch applied to n already-serialized fragments returns exactly the
fragments joined in order with commas and wrapped in square brackets, and
applied to zero fragments returns "[]"; its return type is a plain string, so
no error is ever produced. -/
theorem C9_batch_join :
    (∀ l : List String, Batch l = "[" ++ commaJoin l ++ "]") ∧ Batch [] = "[]" := by
  constructor
  · intro l
    cases l with
    | nil => decide
    | cons x xs =>
        unfold Batch
        rw [if_neg (by simp)]
        rw [batch_loop_spec xs x "["]
  · rfl

/-- C10: a reply object with version "2.0", no error member, and a result key
whose value is explicit JSON null is not classified Success: parseResMap
treats the null result as absent, returns the invalid-jsonrpc-object error,
and leaves the classification tag at its zero value "" (not Success). -/
theorem C10_null_result (meth prm i : Option JsonVal) :
    parseResMap ⟨some (.str "2.0"), meth, prm, i, some .null, none⟩ =
      some (⟨"", ⟨"2.0", .null, none, fieldVal i⟩⟩, some GoErr.jsonrpcObject) ∧
    ("" : String) ≠ SuccessType := by
  exact ⟨rfl, by decide⟩

/-- C6 counterexample: 7.0 is an integer-valued number (denominator 1), yet
validateID rejects it, because the type switch accepts only the dynamic type
int and a decoded or caller-supplied float64 never matches. -/
theorem C6_counterexample :
    validateID (GoVal.float 7) = some GoErr.invalidID ∧ (7 : ℚ).den = 1 :=
  ⟨rfl, rfl⟩

/-- C6 amended: validateID accepts exactly absent/nil, string, and values of
the Go int type; every float64 (integer-valued or not), boolean, array, and
object is rejected. -/
theorem C6_validateID (v : GoVal) :
    validateID v = none ↔
      v = GoVal.nil ∨ (∃ s, v = GoVal.str s) ∨ (∃ n, v = GoVal.int n) := by
  cases v <;> simp [validateID]

/-- First element of the failing batch input: the object with a number-valued
jsonrpc key, decoded from the text with jsonrpc equal to the number 1. -/
def badElem : DecodedMap := ⟨some (.num 1), none, none, none, none, none⟩

/-- Second element of the failing batch input: a well-formed notification. -/
def goodElem : DecodedMap :=
  ⟨some (.str "2.0"), some (.str "notify_hello"), none, none, none, none⟩

/-- C2: evaluating the code at the failing input.  The batch decodes as two
objects; the sibling alone classifies as Notification, but parseReqMap's
unchecked `version.(string)` assertion panics on the first element's numeric
jsonrpc value, so the whole ParseBatch call aborts (`none`) instead of
returning two results with only the first Invalid. -/
theorem C2_batch_panic :
    ParseBatch 57 (Decoded.ok [badElem, goodElem]) = none ∧
    (parseReqMap goodElem).map (fun p => p.1.«Type») = some NotificationType ∧
    parseReqMap badElem = none :=
  ⟨rfl, rfl, rfl⟩

/-- C3 counterexample: on outer-array decode failure (e.g. the text "[x:x]",
length 5), ParseBatch returns zero elements together with the error
"invalid jsonrpc message structures" - not a single-element sequence, and the
error is not the Parse-error catalog entry (-32700). -/
theorem C3_counterexample :
    (ParseBatch 5 Decoded.failure).map (fun p => (p.1.length, p.2)) =
      some (0, some GoErr.msgStructures) ∧
    errMessage GoErr.msgStructures ≠ RPCParseError.Message :=
  ⟨rfl, by decide⟩

/-- C3 amended: for every batch text of length at least 2 whose outer array
fails to decode, ParseBatch returns the empty sequence plus the
invalid-jsonrpc-message-structures error - a bare error with no elements,
with no element-by-element recovery and no Parse-error entry involved. -/
theorem C3_outer_failure (n : Nat) (h : 2 ≤ n) :
    ParseBatch n Decoded.failure = some ([], some GoErr.msgStructures) := by
  unfold ParseBatch
  rw [if_neg (by omega)]

/-- C3 witness: the amended statement at the concrete length of "[x:x]". -/
theorem C3_outer_failure_witness :
    ParseBatch 5 Decoded.failure = some ([], some GoErr.msgStructures) :=
  C3_outer_failure 5 (by decide)

lemma isNull_toJson (v : GoVal) : (toJson v).isNull = v.isNil := by
  cases v <;> rfl

/-- C4: for every legal id and non-nil result, building a success reply and
parsing the produced text yields a Success-classified message whose result
field is the JSON image of the original result. -/
theorem C4_success_roundtrip (id result : GoVal)
    (hid : validateID id = none) (hres : result.isNil = false) :
    ∃ m r, Success id result = (some m, none) ∧
      parseResMap m = some (r, none) ∧
      r.«Type» = SuccessType ∧ r.PlayLoad.Result = toJson result := by
  refine ⟨{ jsonrpc := some (.str jsonRPCVersion), method := none, params := none,
            result := some (toJson result),
            id := if id.isNil then none else some (toJson id), error := none },
          ⟨SuccessType, ⟨"2.0", toJson result, none,
            fieldVal (if id.isNil then none else some (toJson id))⟩⟩, ?_, ?_, rfl, rfl⟩
  · simp [Success, hres, hid]
  · simp [parseResMap, goStringField, parseErrField, checkResType, jsonRPCVersion,
      fieldVal, isNull_toJson, hres]

/-- C4 witness: the round trip at id "123" and result "OK". -/
theorem C4_success_roundtrip_witness :
    ∃ m r, Success (GoVal.str "123") (GoVal.str "OK") = (some m, none) ∧
      parseResMap m = some (r, none) ∧
      r.«Type» = SuccessType ∧ r.PlayLoad.Result = toJson (GoVal.str "OK") :=
  C4_success_roundtrip (GoVal.str "123") (GoVal.str "OK") rfl rfl

/-- A decoded request object carrying version "1.0". -/
def wrongVersionReq : DecodedMap :=
  ⟨some (.str "1.0"), some (.str "update"), none, some (.str "1"), none, none⟩

/-- C5 counterexample: a decoded object with jsonrpc "1.0" is classified
Invalid, but the error returned alongside is the distinct Go error
"invalid jsonrpc version", not the "Invalid Request" catalog entry the claim
names; no ErrorObj is attached to the result at all. -/
theorem C5_counterexample :
    (parseReqMap wrongVersionReq).map (fun p => (p.1.«Type», p.2)) =
      some (Invalid, some GoErr.jsonrpcVersion) ∧
    errMessage GoErr.jsonrpcVersion ≠ RPCInvalidRequest.Message :=
  ⟨rfl, by decide⟩

/-- C5 amended: every decoded message whose jsonrpc value is a string other
than "2.0" is classified Invalid with the distinct invalid-jsonrpc-version
error by both the request and the reply parser - never Success, Error,
Request, or Notification - except that a malformed method or error member
panics the parser before classification (the `none` branch). -/
theorem C5_version_mismatch (m : DecodedMap) (s : String) (hs : s ≠ "2.0")
    (hj : m.jsonrpc = some (.str s)) :
    ((parseReqMap m).map (fun p => (p.1.«Type», p.2)) =
        some (Invalid, some GoErr.jsonrpcVersion) ∨ parseReqMap m = none) ∧
    ((parseResMap m).map (fun p => (p.1.«Type», p.2)) =
        some (Invalid, some GoErr.jsonrpcVersion) ∨ parseResMap m = none) ∧
    Invalid ≠ SuccessType ∧ Invalid ≠ ErrorType ∧ Invalid ≠ RequestType ∧
    Invalid ≠ NotificationType := by
  refine ⟨?_, ?_, by decide, by decide, by decide, by decide⟩
  · cases hm : goStringField m.method with
    | none =>
        right
        simp only [parseReqMap, hj, hm]
        rfl
    | some meth =>
        left
        simp only [parseReqMap, hj, hm]
        simp [goStringField, checkReqType, jsonRPCVersion, hs]
  · cases he : parseErrField m.error with
    | none =>
        right
        simp only [parseResMap, hj, he]
        rfl
    | some eo =>
        left
        simp only [parseResMap, hj, he]
        simp [goStringField, checkResType, jsonRPCVersion, hs]

/-- C5 witness: the amended statement at the version "1.0" request object. -/
theorem C5_version_mismatch_witness :
    ((parseReqMap wrongVersionReq).map (fun p => (p.1.«Type», p.2)) =
        some (Invalid, some GoErr.jsonrpcVersion) ∨
      parseReqMap wrongVersionReq = none) ∧
    ((parseResMap wrongVersionReq).map (fun p => (p.1.«Type», p.2)) =
        some (Invalid, some GoErr.jsonrpcVersion) ∨
      parseResMap wrongVersionReq = none) ∧
    Invalid ≠ SuccessType ∧ Invalid ≠ ErrorType ∧ Invalid ≠ RequestType ∧
    Invalid ≠ NotificationType :=
  C5_version_mismatch wrongVersionReq "1.0" (by decide) rfl

/-- A decoded request object whose id is the boolean true. -/
def boolIdReq : DecodedMap :=
  ⟨some (.str "2.0"), some (.str "update"), none, some (.bool true), none, none⟩

/-- C7 counterexample: a decoded message with a boolean id - a kind the ID
validator rejects - is classified Request carrying that id, not Invalid:
parseReqMap never runs validateID. -/
theorem C7_counterexample :
    (parseReqMap boolIdReq).map (fun p => (p.1.«Type», p.1.PlayLoad.ID, p.2)) =
      some (RequestType, JsonVal.bool true, none) ∧
    validateID (GoVal.bool true) = some GoErr.invalidID ∧
    RequestType ≠ Invalid :=
  ⟨rfl, rfl, by decide⟩

/-- C7 amended: inbound classification never consults the ID validator: a
decoded id of any non-null kind is carried verbatim into a Request
classification by the request parser and into a Success classification by the
reply parser. -/
theorem C7_no_inbound_validation (v : JsonVal) (hv : v.isNull = false) :
    parseReqMap ⟨some (.str "2.0"), some (.str "update"), none, some v, none, none⟩ =
      some (⟨RequestType, ⟨"2.0", "update", .null, v⟩⟩, none) ∧
    parseResMap ⟨some (.str "2.0"), none, none, some v, some (.str "OK"), none⟩ =
      some (⟨SuccessType, ⟨"2.0", .str "OK", none, v⟩⟩, none) := by
  constructor
  · simp [parseReqMap, goStringField, checkReqType, jsonRPCVersion, fieldVal, hv]
  · simp [parseResMap, goStringField, parseErrField, checkResType, jsonRPCVersion,
      fieldVal, JsonVal.isNull]

/-- C7 witness: the amended statement at the boolean id true. -/
theorem C7_no_inbound_validation_witness :
    parseReqMap ⟨some (.str "2.0"), some (.str "update"), none,
        some (.bool true), none, none⟩ =
      some (⟨RequestType, ⟨"2.0", "update", .null, .bool true⟩⟩, none) ∧
    parseResMap ⟨some (.str "2.0"), none, none, some (.bool true),
        some (.str "OK"), none⟩ =
      some (⟨SuccessType, ⟨"2.0", .str "OK", none, .bool true⟩⟩, none) :=
  C7_no_inbound_validation (.bool true) rfl

/-- C8 counterexample: at the illegal boolean id, Request, Success, and Error
all return the plain Go error "invalid id that MUST contain a String, Number,
or NULL value" together with the empty result - not an Error Object of
Internal-error class (-32603); the returned error's text is not even
"Internal error". -/
theorem C8_counterexample :
    Request (GoVal.bool true) "update" [] = (none, some GoErr.invalidID) ∧
    Success (GoVal.bool true) (GoVal.str "") = (none, some GoErr.invalidID) ∧
    Error (GoVal.bool true) ⟨1, "test", .null⟩ = (none, some GoErr.invalidID) ∧
    errMessage GoErr.invalidID ≠ RPCInternalError.Message ∧
    errMessage GoErr.invalidID =
      "invalid id that MUST contain a String, Number, or NULL value" :=
  ⟨rfl, rfl, rfl, by decide, rfl⟩

/-- C8 amended: for every id the validator rejects, every constructor returns
the empty result and the invalid-id Go error as a value (Success only after
its mandatory-result check passes); failures are returned, never thrown, but
as plain error values rather than Internal-error ErrorObj values. -/
theorem C8_constructor_errors (id : GoVal) (meth : String) (args : List GoVal)
    (r : GoVal) (eo : ErrorObj) (h : validateID id ≠ none) :
    Request id meth args = (none, some GoErr.invalidID) ∧
    (r.isNil = false → Success id r = (none, some GoErr.invalidID)) ∧
    Error id eo = (none, some GoErr.invalidID) := by
  have hid : validateID id = some GoErr.invalidID := by
    cases id <;> simp [validateID] at h ⊢
  refine ⟨?_, fun hr => ?_, ?_⟩
  · simp [Request, hid]
  · simp [Success, hid, hr]
  · simp [Error, hid]

/-- C8 witness: the amended statement at the boolean id true. -/
theorem C8_constructor_errors_witness :
    Request (GoVal.bool true) "update" [] = (none, some GoErr.invalidID) ∧
    ((GoVal.str "").isNil = false →
      Success (GoVal.bool true) (GoVal.str "") = (none, some GoErr.invalidID)) ∧
    Error (GoVal.bool true) ⟨1, "test", .null⟩ = (none, some GoErr.invalidID) :=
  C8_constructor_errors (GoVal.bool true) "update" [] (GoVal.str "")
    ⟨1, "test", .null⟩ (by decide)

/-- A decoded object carrying both a method and a result. -/
def methodResultObj : DecodedMap :=
  ⟨some (.str "2.0"), some (.str "update"), none, some (.str "1"),
    some (.str "OK"), none⟩

/-- A decoded object carrying an error member and no method. -/
def errOnlyObj : DecodedMap :=
  ⟨some (.str "2.0"), none, none, some (.str "1"), none,
    some (.obj [("code", .num 1), ("message", .str "test")])⟩

/-- C1 counterexample: the claimed single precedence does not exist in the
code.  The reply classifier (checkResType, via parseResMap) classifies an
object with a non-empty method, a non-null id, and a result as Success -
method does not win there - and the request classifier (checkReqType, via
parseReqMap) classifies an object with an error member and no method as
Invalid with the invalid-jsonrpc-object error, not as an Error reply. -/
theorem C1_counterexample :
    (parseResMap methodResultObj).map (fun p => (p.1.«Type», p.2)) =
      some (SuccessType, none) ∧
    SuccessType ≠ RequestType ∧
    (parseReqMap errOnlyObj).map (fun p => (p.1.«Type», p.2)) =
      some (Invalid, some GoErr.jsonrpcObject) ∧
    Invalid ≠ ErrorType :=
  ⟨rfl, by decide, rfl, by decide⟩

lemma parseErrField_some_ne_none (v : JsonVal) :
    parseErrField (some v) ≠ some none := by
  cases v with
  | obj fs =>
      simp only [parseErrField]
      split <;> simp
  | null => simp [parseErrField]
  | bool b => simp [parseErrField]
  | num q => simp [parseErrField]
  | str s => simp [parseErrField]
  | arr es => simp [parseErrField]

/-- C1 amended: classification is split between two discriminators.  For a
decoded object with version "2.0": the request parser (Parse/ParseBatch via
checkReqType) classifies by method alone - a present non-empty method yields
Request when the id is present and non-null and Notification otherwise,
regardless of any result or error members, while an absent or empty method
yields Invalid with the invalid-jsonrpc-object error even when result or
error members are present.  The reply parser (ParseReply via checkResType)
never considers method: a present error key (of any value) yields Error, an
absent error key with a non-null result yields Success, and neither yields
the invalid-jsonrpc-object error with the tag left unset; a malformed error
member panics the reply parser before classification. -/
theorem C1_classification (m : DecodedMap) (meth : String)
    (hj : m.jsonrpc = some (.str "2.0")) :
    (m.method = some (.str meth) → meth ≠ "" →
      (parseReqMap m).map (fun p => (p.1.«Type», p.2)) =
        some (if (fieldVal m.id).isNull then (NotificationType, none)
              else (RequestType, none))) ∧
    ((m.method = none ∨ m.method = some (.str "")) →
      (parseReqMap m).map (fun p => (p.1.«Type», p.2)) =
        some (Invalid, some GoErr.jsonrpcObject)) ∧
    (m.error ≠ none →
      ((parseResMap m).map (fun p => (p.1.«Type», p.2)) = some (ErrorType, none) ∨
        parseResMap m = none)) ∧
    (m.error = none → (fieldVal m.result).isNull = false →
      (parseResMap m).map (fun p => (p.1.«Type», p.2)) = some (SuccessType, none)) ∧
    (m.error = none → (fieldVal m.result).isNull = true →
      (parseResMap m).map (fun p => (p.1.«Type», p.2)) =
        some ("", some GoErr.jsonrpcObject)) := by
  refine ⟨?_, ?_, ?_, ?_, ?_⟩
  · intro hm hne
    cases hn : (fieldVal m.id).isNull <;>
      simp [parseReqMap, hj, hm, goStringField, checkReqType, jsonRPCVersion, hne, hn]
  · intro hm
    rcases hm with hm | hm <;>
      simp [parseReqMap, hj, hm, goStringField, checkReqType, jsonRPCVersion]
  · intro he
    cases hme : m.error with
    | none => exact absurd hme he
    | some v =>
        cases hpe : parseErrField (some v) with
        | none =>
            right
            simp [parseResMap, hj, hme, hpe, goStringField]
        | some eo =>
            cases eo with
            | none => exact absurd hpe (parseErrField_some_ne_none v)
            | some o =>
                left
                simp [parseResMap, hj, hme, hpe, goStringField, checkResType,
                  jsonRPCVersion]
  · intro he hres
    simp [parseResMap, hj, he, parseErrField, goStringField, checkResType,
      jsonRPCVersion, hres]
  · intro he hres
    simp [parseResMap, hj, he, parseErrField, goStringField, checkResType,
      jsonRPCVersion, hres]

/-- C1 witness: the amended statement applied at the method-plus-result
object (request side, method wins there) and at the error-reply object
(reply side classifies Error). -/
theorem C1_classification_witness :
    ((parseReqMap methodResultObj).map (fun p => (p.1.«Type», p.2)) =
      some (if (fieldVal methodResultObj.id).isNull then (NotificationType, none)
            else (RequestType, none))) ∧
    ((parseResMap errOnlyObj).map (fun p => (p.1.«Type», p.2)) =
        some (ErrorType, none) ∨
      parseResMap errOnlyObj = none) :=
  ⟨(C1_classification methodResultObj "update" rfl).1 rfl (by decide),
   (C1_classification errOnlyObj "" rfl).2.2.1 (by simp [errOnlyObj])⟩

end JsonrpcGo
